import Mathlib

/-!
Shallow embedding of `sportschau_bl_data` (src/sportschau_bl_data/sportschau.py
and config.py): a scraper that discovers Bundesliga seasons from an HTML page,
fetches 4 per-statistic tables per season, inner-joins them on player identity,
and caches the merged tables as CSV files.

Tabular data (`pandas.DataFrame`) is modelled as a header list plus rows of
cells aligned with the header; cell contents are strings (the numeric parsing
of cells plays no role in any claim).  Python `dict`s are modelled as
association lists with Python's insertion-order/overwrite semantics.  Python
exceptions are modelled by an `Except PyError` result.  The filesystem is
modelled explicitly: a set of existing directories (for directory creation) and
a list of `(filename, table)` pairs (for the CSV cache).
-/

/-- Python exceptions that the code under study can raise. -/
inductive PyError where
  | keyError (msg : String)
  | attributeError
  | indexError
deriving DecidableEq, Repr

/-- A `pandas.DataFrame`: column headers plus rows of cells aligned with the
headers.  Duplicate column names are representable, as in pandas. -/
structure DataFrame where
  columns : List String
  rows : List (List String)
deriving DecidableEq, Repr, Inhabited

/-- `pat` is a prefix of the second list. -/
def listStartsWith : List Char → List Char → Bool
  | [], _ => true
  | _ :: _, [] => false
  | p :: ps, c :: cs => p == c && listStartsWith ps cs

/-- `pat` occurs as a contiguous sublist. -/
def listIn (pat : List Char) : List Char → Bool
  | [] => pat.isEmpty
  | c :: cs => listStartsWith pat (c :: cs) || listIn pat cs

/-- Split at every occurrence of a separator character.  Every separator in
the source (`"/"`, `"_"`, `"."`) is a single character, so Python `str.split`
is embedded at the character level. -/
def splitChar (sep : Char) : List Char → List (List Char)
  | [] => [[]]
  | c :: cs =>
    if c == sep then [] :: splitChar sep cs
    else
      match splitChar sep cs with
      | [] => [[c]]
      | p :: ps => (c :: p) :: ps

/-- Interleave a separator character between the pieces (Python
`sep.join(pieces)`). -/
def joinChar (sep : Char) : List (List Char) → List Char
  | [] => []
  | [p] => p
  | p :: ps => p ++ sep :: joinChar sep ps

/-- Python `s.split(sep)` for a one-character separator. -/
def strSplit (s : String) (sep : Char) : List String :=
  (splitChar sep s.data).map (fun l => ⟨l⟩)

/-- Python `sep.join(l)` for a one-character separator. -/
def strJoin (sep : Char) (l : List String) : String :=
  ⟨joinChar sep (l.map String.data)⟩

/-- Python `sub in s` for strings: `sub` occurs as a substring of `s`. -/
def strIn (sub s : String) : Bool := listIn sub.data s.data

/-- Python `s.replace(a, b)` for one-character `a` and `b` (the only form the
source uses). -/
def strReplace (s : String) (a b : Char) : String :=
  ⟨s.data.map (fun c => if c == a then b else c)⟩

/-- Python `pathlib.Path.stem`: the filename with its last extension removed. -/
def stem (s : String) : String :=
  let parts := strSplit s '.'
  if parts.length ≤ 1 then s else strJoin '.' parts.dropLast

/-- Python `d[k] = v` on a dict: overwrite in place if the key exists,
otherwise append (insertion order preserved). -/
def dictInsert {α : Type} (d : List (String × α)) (k : String) (v : α) :
    List (String × α) :=
  if d.any (fun p => p.1 == k) then
    d.map (fun p => if p.1 == k then (k, v) else p)
  else d ++ [(k, v)]

/-- A Python dict built from a sequence of key/value pairs (comprehension
semantics: first occurrence fixes the position, last occurrence the value). -/
def dictOfPairs {α : Type} (l : List (String × α)) : List (String × α) :=
  l.foldl (fun d p => dictInsert d p.1 p.2) []

/-- Python `d.get(k)`. -/
def dictGet {α : Type} (d : List (String × α)) (k : String) : Option α :=
  (d.find? (fun p => p.1 == k)).map (·.2)

/-- `BASE_URL` from the source. -/
def BASE_URL : String := "https://www.sportschau.de/live-und-ergebnisse/fussball/"

/-- `COMPS` from the source. -/
def COMPS : List (String × String) :=
  [("GER1", "deutschland-bundesliga"), ("GER2", "deutschland-2-bundesliga")]

/-- `AVAILABLE_SEASONS` from the source. -/
def AVAILABLE_SEASONS : List String :=
  ["2016/2017", "2017/2018", "2018/2019", "2019/2020", "2020/2021",
   "2021/2022", "2022/2023"]

/-- `STATS` from the source. -/
def STATS : List (String × String) :=
  [("zweikaempfe", "statistik-zweikaempfe"),
   ("topspeed", "statistik-laufleistung-topspeed"),
   ("laufleistung", "statistik-laufleistung"),
   ("sprints", "statistik-laufleistung-sprints")]

/-- `COLUMN_NAMES` from the source: raw German headers to canonical names. -/
def COLUMN_NAMES : List (String × String) :=
  [("Name", "player_name"), ("Mannschaft", "team_name"), ("Spiele", "games"),
   ("Gew.", "duels_won"), ("Verl.", "duels_lost"), ("Summe", "duels"),
   ("Quote %", "duels_won_pct"), ("Max. km/h", "topspeed_kmh"), ("km", "km"),
   ("km/Spiel", "km/game"), ("Sprints", "sprints")]

/-- `df.drop(c, axis=1)`: remove every column named `c` with its cells. -/
def DataFrame.drop (df : DataFrame) (c : String) : DataFrame :=
  { columns := df.columns.filter (fun x => x != c),
    rows := df.rows.map (fun r =>
      ((df.columns.zip r).filter (fun p => p.1 != c)).map (·.2)) }

/-- `df[c] = v` with a scalar `v`: overwrite the column if present, otherwise
append it, with the constant value in every row. -/
def DataFrame.setCol (df : DataFrame) (c v : String) : DataFrame :=
  if df.columns.contains c then
    { columns := df.columns,
      rows := df.rows.map (fun r =>
        ((df.columns.zip r).map (fun p => if p.1 == c then v else p.2))) }
  else
    { columns := df.columns ++ [c], rows := df.rows.map (· ++ [v]) }

/-- The values a row takes at the join columns (first matching column each). -/
def keyVals (cols : List String) (row : List String) (onCols : List String) :
    List (Option String) :=
  onCols.map (fun k => (cols.findIdx? (fun c => c == k)).bind (row.get? ·))

/-- `left.merge(right, on=onCols)`: pandas inner join.  Raises `KeyError` when a
join column is missing from either frame; overlapping non-key columns are
suffixed `_x`/`_y` (pandas default, no collision error); result columns are the
left columns followed by the right non-key columns; result rows pair each left
row with every right row agreeing on the join columns, in left-major order. -/
def DataFrame.merge (l r : DataFrame) (onCols : List String) :
    Except PyError DataFrame :=
  match onCols.find? (fun k => !(l.columns.contains k) || !(r.columns.contains k)) with
  | some k => .error (.keyError k)
  | none =>
    let overlap := fun c =>
      !(onCols.contains c) && l.columns.contains c && r.columns.contains c
    let lcols := l.columns.map (fun c => if overlap c then c ++ "_x" else c)
    let rcols := (r.columns.filter (fun c => !(onCols.contains c))).map
      (fun c => if overlap c then c ++ "_y" else c)
    let rows := l.rows.flatMap (fun lrow =>
      (r.rows.filter (fun rrow =>
          keyVals l.columns lrow onCols == keyVals r.columns rrow onCols)).map
        (fun rrow => lrow ++
          ((r.columns.zip rrow).filter (fun p => !(onCols.contains p.1))).map (·.2)))
    .ok { columns := lcols ++ rcols, rows := rows }

/-- `df.rename(columns=m)`: rename each header through the lookup, leaving
unmatched headers unchanged. -/
def DataFrame.rename (df : DataFrame) (m : List (String × String)) : DataFrame :=
  { columns := df.columns.map (fun c => (dictGet m c).getD c), rows := df.rows }

/-- The state built by `Sportschau.__init__`. -/
structure Sportschau where
  competition_id : String
  comp : String
  data_dir : String
  base_url : String
deriving DecidableEq, Repr

/-- The `KeyError` message of `Sportschau.__init__` (the f-string renders the
dict view of the known competition identifiers). -/
def compsErrMsg : String :=
  "Competition not availabe. Choose one of dict_keys(['GER1', 'GER2'])"

/-- `Sportschau.__init__`: rejects unknown competition identifiers with a
`KeyError` listing the known ones; otherwise records the competition, its URL
segment, the cache directory and the base URL. -/
def Sportschau.init (competition_id : String) (data_dir : String) :
    Except PyError Sportschau :=
  if (COMPS.map (·.1)).contains competition_id then
    .ok { competition_id := competition_id,
          comp := (dictGet COMPS competition_id).getD "",
          data_dir := data_dir,
          base_url := BASE_URL ++ (dictGet COMPS competition_id).getD "" ++ "/"
            ++ (dictGet STATS "topspeed").getD "" }
  else .error (.keyError compsErrMsg)

/-- An `<option>` element of the season-navigation `<select>`: display text and
`value` attribute. -/
structure HtmlOption where
  text : String
  value : String
deriving DecidableEq, Repr

/-- The fixed-position slice `"/".join(value.split("/")[4:6])` taken of each
option's value in `set_seasons`. -/
def sliceSeasonValue (v : String) : String :=
  strJoin '/' (((strSplit v '/').drop 4).take 2)

/-- `Sportschau.set_seasons`, given the option elements parsed from the base
page: map each option's text to the slice of its value (dict semantics), then
keep only the labels in `AVAILABLE_SEASONS`. -/
def set_seasons (opts : List HtmlOption) : List (String × String) :=
  let seasons := dictOfPairs (opts.map (fun o => (o.text, sliceSeasonValue o.value)))
  seasons.filter (fun p => AVAILABLE_SEASONS.contains p.1)

/-- `Sportschau._set_urls`: for every discovered season and every statistic,
the URL `BASE_URL + comp + "/" + season_link + "/" + stat_link + "/"`. -/
def set_urls (comp : String) (seasons : List (String × String)) :
    List (String × List (String × String)) :=
  seasons.map (fun p =>
    (p.1, STATS.map (fun st =>
      (st.1, BASE_URL ++ comp ++ "/" ++ p.2 ++ "/" ++ st.2 ++ "/"))))

/-- The `KeyError` message of `read_data` (a plain string in the source: the
braces are literal text, not interpolation). -/
def readDataErrMsg : String := "Couldn't get data from \x7burl\x7d."

/-- `Sportschau.read_data`, with the network and HTML-table parsing abstracted
as `env : url ↦ list of parsed tables`: raise `KeyError` when no table was
parsed, otherwise take the first table and drop the presentational `#` and
`Unnamed: 1` columns when present. -/
def read_data (env : String → List DataFrame) (url : String) :
    Except PyError DataFrame :=
  match env url with
  | [] => .error (.keyError readDataErrMsg)
  | df :: _ =>
    let df := if df.columns.contains "#" then df.drop "#" else df
    let df := if df.columns.contains "Unnamed: 1" then df.drop "Unnamed: 1" else df
    .ok df

/-- The loop of `Sportschau._merge_dfs`: fold the tables after the first into
the first, dropping each later table's `Spiele` column when present and
inner-joining on `["Name", "Mannschaft"]`. -/
def mergeLoop (df : DataFrame) : List DataFrame → Except PyError DataFrame
  | [] => .ok df
  | t :: ts =>
    let t2 := if t.columns.contains "Spiele" then t.drop "Spiele" else t
    match df.merge t2 ["Name", "Mannschaft"] with
    | .ok df2 => mergeLoop df2 ts
    | .error e => .error e

/-- `Sportschau._merge_dfs`: `dfs[0]` raises `IndexError` on an empty list;
otherwise run the merge loop and rename the headers by `COLUMN_NAMES`. -/
def merge_dfs (dfs : List DataFrame) : Except PyError DataFrame :=
  match dfs with
  | [] => .error .indexError
  | df :: rest => (mergeLoop df rest).map (fun d => d.rename COLUMN_NAMES)

/-- The fetch loop of `read_seasons` over one season's statistic URLs:
`read_data` on each URL in order, collecting the tables. -/
def fetchTables (env : String → List DataFrame) :
    List (String × String) → Except PyError (List DataFrame)
  | [] => .ok []
  | su :: rest =>
    match read_data env su.2 with
    | .error e => .error e
    | .ok df => (fetchTables env rest).map (df :: ·)

/-- The per-season body of `read_seasons`: fetch the season's tables (errors
propagate), then `try` the merge and the metadata columns; a `KeyError` from
the merge is caught (`none` = the season is skipped with a warning), any other
error propagates. -/
def seasonStep (spo : Sportschau) (env : String → List DataFrame)
    (statUrls : List (String × String)) (season : String) :
    Except PyError (Option DataFrame) :=
  match fetchTables env statUrls with
  | .error e => .error e
  | .ok dfs =>
    match merge_dfs dfs with
    | .ok df =>
      .ok (some ((df.setCol "season" season).setCol "competition_id"
        spo.competition_id))
    | .error (.keyError _) => .ok none
    | .error e => .error e

/-- What `read_seasons` does for one requested season: `self.urls.get(season)`
is `None` when the season was never discovered, and iterating `None` raises
`AttributeError`; otherwise run the per-season body. -/
def stepOf (spo : Sportschau) (urls : List (String × List (String × String)))
    (env : String → List DataFrame) (season : String) :
    Except PyError (Option DataFrame) :=
  match dictGet urls season with
  | none => .error .attributeError
  | some statUrls => seasonStep spo env statUrls season

/-- The warning message `read_seasons` emits when a season's merge fails. -/
def warnMsg (cid season : String) : String :=
  "Data for " ++ cid ++ " | " ++ season ++ " could not be read."

/-- The result of the season loop: the `self.data` dict and the warnings
emitted along the way. -/
structure ReadOutcome where
  data : List (String × DataFrame)
  warnings : List String
deriving DecidableEq, Repr

/-- The season loop of `read_seasons`: process seasons in order, inserting each
successfully merged table under its season key, recording one warning per
caught merge failure, and aborting on any uncaught error. -/
def readSeasonsLoop (spo : Sportschau)
    (urls : List (String × List (String × String)))
    (env : String → List DataFrame) :
    List String → List (String × DataFrame) → List String →
    Except PyError ReadOutcome
  | [], data, warns => .ok { data := data, warnings := warns }
  | season :: rest, data, warns =>
    match stepOf spo urls env season with
    | .error e => .error e
    | .ok (some df) =>
      readSeasonsLoop spo urls env rest (dictInsert data season df) warns
    | .ok none =>
      readSeasonsLoop spo urls env rest data
        (warns ++ [warnMsg spo.competition_id season])

/-- The cache filename `f"{competition_id}_{season.replace('/', '-')}.csv"`. -/
def csvName (cid season : String) : String :=
  cid ++ "_" ++ strReplace season '/' '-' ++ ".csv"

/-- `Sportschau.save_data`: one CSV file per entry of `self.data`, named by
competition and season; the file stores the table (CSV round trip through
`to_csv`/`read_csv(index_col=0)` preserves headers and rows). -/
def save_data (spo : Sportschau) (data : List (String × DataFrame)) :
    List (String × DataFrame) :=
  data.map (fun p => (csvName spo.competition_id p.1, p.2))

/-- `Sportschau.read_seasons`, with the discovered season dict and URL dict
passed explicitly: filter an explicit season list by `AVAILABLE_SEASONS`
(default: all discovered seasons), run the season loop, and when `save` is set
also return the files `save_data` writes. -/
def read_seasons (spo : Sportschau) (seasonsDict : List (String × String))
    (urls : List (String × List (String × String)))
    (env : String → List DataFrame) (seasons : Option (List String))
    (save : Bool) :
    Except PyError (ReadOutcome × List (String × DataFrame)) :=
  let ss := match seasons with
    | some l => l.filter (fun s => AVAILABLE_SEASONS.contains s)
    | none => seasonsDict.map (·.1)
  match readSeasonsLoop spo urls env ss [] [] with
  | .error e => .error e
  | .ok out => .ok (out, if save then save_data spo out.data else [])

/-- Python `list[i]`: `IndexError` out of range. -/
def pyIndex {α : Type} (l : List α) (i : Nat) : Except PyError α :=
  match l.get? i with
  | some a => .ok a
  | none => .error .indexError

/-- `Sportschau.load_data` over the CSV files of the cache directory.  With
`all_comps` the key is the whole stem with `-` restored to `/`; otherwise only
files whose stem contains the configured competition identifier are kept and
the key is piece 1 of the `_`-split stem with `-` restored to `/` (piece 1
missing raises `IndexError`). -/
def load_data (spo : Sportschau) (files : List (String × DataFrame))
    (all_comps : Bool) : Except PyError (List (String × DataFrame)) :=
  if all_comps then
    .ok (dictOfPairs (files.map (fun p => (strReplace (stem p.1) '-' '/', p.2))))
  else
    match (files.filter (fun p => strIn spo.competition_id (stem p.1))).foldlM
      (fun acc p => do
        let piece ← pyIndex (strSplit (stem p.1) '_') 1
        pure (acc ++ [(strReplace piece '-' '/', p.2)])) [] with
    | .error e => .error e
    | .ok entries => .ok (dictOfPairs entries)

/-- All ancestors of a `/`-separated path, shortest first, ending with the path
itself. -/
def pathPrefixes (p : String) : List String :=
  let parts := strSplit p '/'
  (List.range parts.length).map (fun i => strJoin '/' (parts.take (i + 1)))

/-- Record a directory as existing unless it already does. -/
def insertIfAbsent (fs : List String) (p : String) : List String :=
  if fs.contains p then fs else fs ++ [p]

/-- `Path.mkdir(parents=True, exist_ok=True)` on a filesystem modelled as the
list of existing directories. -/
def mkdir_p (fs : List String) (p : String) : List String :=
  (pathPrefixes p).foldl insertIfAbsent fs

/-- `DATA_DIR` from config.py: `Path.home() / "project_data" /
"sportschau_bl_data" / "data"`. -/
def DATA_DIR (home : String) : String :=
  home ++ "/project_data/sportschau_bl_data/data"

/-- Importing config.py runs `DATA_DIR.mkdir(parents=True, exist_ok=True)`:
the only directory creation in the repository, applied to the default data
directory regardless of the directory a constructor is later given. -/
def configImport (home : String) (fs : List String) : List String :=
  mkdir_p fs (DATA_DIR home)

/-- `Sportschau.__init__` paired with the filesystem it runs on: the
constructor body contains no `mkdir`, so the filesystem is untouched. -/
def Sportschau.initFS (fs : List String) (competition_id data_dir : String) :
    Except PyError (Sportschau × List String) :=
  (Sportschau.init competition_id data_dir).map (fun s => (s, fs))

deriving instance DecidableEq for Except

/-- A fixture page's season options: every allow-listed season plus two extra
labels the allow-list does not know. -/
def seasonOptsFixture : List HtmlOption :=
  [⟨"2015/2016", "/live-und-ergebnisse/fussball/deutschland-bundesliga/ergebnisse/2015-2016/x"⟩,
   ⟨"2016/2017", "/live-und-ergebnisse/fussball/deutschland-bundesliga/ergebnisse/2016-2017/x"⟩,
   ⟨"2017/2018", "/live-und-ergebnisse/fussball/deutschland-bundesliga/ergebnisse/2017-2018/x"⟩,
   ⟨"2018/2019", "/live-und-ergebnisse/fussball/deutschland-bundesliga/ergebnisse/2018-2019/x"⟩,
   ⟨"2019/2020", "/live-und-ergebnisse/fussball/deutschland-bundesliga/ergebnisse/2019-2020/x"⟩,
   ⟨"2020/2021", "/live-und-ergebnisse/fussball/deutschland-bundesliga/ergebnisse/2020-2021/x"⟩,
   ⟨"2021/2022", "/live-und-ergebnisse/fussball/deutschland-bundesliga/ergebnisse/2021-2022/x"⟩,
   ⟨"2022/2023", "/live-und-ergebnisse/fussball/deutschland-bundesliga/ergebnisse/2022-2023/x"⟩,
   ⟨"Gesamt", "/live-und-ergebnisse/fussball/deutschland-bundesliga/ergebnisse/gesamt/x"⟩]

/-- The merge of per-season tables as the specification words it: start from
the first table as accumulator; for each subsequent table drop its games-played
(`Spiele`) column when it carries one, then inner-join the accumulator with it
on the (player name, team name) pair; finally the caller renames headers by the
fixed lookup.  Stated from the spec for comparison with `merge_dfs`. -/
def specMergeFold (acc : DataFrame) : List DataFrame → Except PyError DataFrame
  | [] => .ok acc
  | t :: ts =>
    let t2 := if t.columns.contains "Spiele" then t.drop "Spiele" else t
    match acc.merge t2 ["Name", "Mannschaft"] with
    | .ok acc2 => specMergeFold acc2 ts
    | .error e => .error e

/-- Classifier for a per-season step result: the season produced a merged
table. -/
def stepSucceeds (r : Except PyError (Option DataFrame)) : Bool :=
  match r with
  | .ok (some _) => true
  | _ => false

/-- Classifier for a per-season step result: the merge raised a caught
`KeyError`, so the season is skipped with a warning. -/
def stepWarns (r : Except PyError (Option DataFrame)) : Bool :=
  match r with
  | .ok none => true
  | _ => false

/-- The merged table of a successful per-season step. -/
def stepValue (r : Except PyError (Option DataFrame)) : DataFrame :=
  match r with
  | .ok (some df) => df
  | _ => default

/-- A `Sportschau` value as `Sportschau.init "GER1" "/data"` builds it. -/
def spoG1 : Sportschau :=
  { competition_id := "GER1", comp := "deutschland-bundesliga",
    data_dir := "/data",
    base_url := BASE_URL ++ "deutschland-bundesliga/statistik-laufleistung-topspeed" }

/-- A fixture season dict with two discovered seasons. -/
def seasonsDictFixture : List (String × String) :=
  [("2016/2017", "ergebnisse/2016-2017"), ("2021/2022", "ergebnisse/2021-2022")]

/-- The URL dict `_set_urls` builds from the fixture season dict. -/
def urlsFixture : List (String × List (String × String)) :=
  set_urls "deutschland-bundesliga" seasonsDictFixture

/-- One statistic URL of the fixture competition. -/
def statUrlFixture (seasonLink statLink : String) : String :=
  BASE_URL ++ "deutschland-bundesliga" ++ "/" ++ seasonLink ++ "/" ++ statLink ++ "/"

/-- Fixture duels table. -/
def zweikaempfeT : DataFrame :=
  ⟨["Name", "Mannschaft", "Spiele", "Gew.", "Verl.", "Summe", "Quote %"],
   [["Lewandowski", "Muenchen", "34", "120", "60", "180", "66.7"]]⟩

/-- Fixture top-speed table sharing its player row with the duels table. -/
def topspeedT : DataFrame :=
  ⟨["Name", "Mannschaft", "Spiele", "Max. km/h"],
   [["Lewandowski", "Muenchen", "34", "33.2"]]⟩

/-- Fixture distance table sharing its player row with the duels table. -/
def laufT : DataFrame :=
  ⟨["Name", "Mannschaft", "Spiele", "km", "km/Spiel"],
   [["Lewandowski", "Muenchen", "34", "330", "9.7"]]⟩

/-- Fixture sprints table sharing its player row with the duels table. -/
def sprintsT : DataFrame :=
  ⟨["Name", "Mannschaft", "Spiele", "Sprints"],
   [["Lewandowski", "Muenchen", "34", "600"]]⟩

/-- A top-speed table missing the `Mannschaft` join column: merging it raises
the `KeyError` that `read_seasons` catches. -/
def topspeedNoTeamT : DataFrame :=
  ⟨["Name", "Spiele", "Max. km/h"], [["Lewandowski", "34", "33.2"]]⟩

/-- Fixture tables with the join columns present but pairwise disjoint player
rows (used to exercise a merge that shares no player identity rows). -/
def topspeedOtherT : DataFrame :=
  ⟨["Name", "Mannschaft", "Spiele", "Max. km/h"], [["Reus", "Dortmund", "30", "34.1"]]⟩

/-- Second disjoint-player fixture table. -/
def laufOtherT : DataFrame :=
  ⟨["Name", "Mannschaft", "Spiele", "km", "km/Spiel"],
   [["Kimmich", "Muenchen", "31", "340", "10.9"]]⟩

/-- Third disjoint-player fixture table. -/
def sprintsOtherT : DataFrame :=
  ⟨["Name", "Mannschaft", "Spiele", "Sprints"], [["Haaland", "Dortmund", "28", "700"]]⟩

/-- Fixture network: season 2016/2017 serves a top-speed table without the
team column (its merge fails with a caught `KeyError`); season 2021/2022
serves four joinable tables. -/
def envMixed : String → List DataFrame := fun url =>
  if url = statUrlFixture "ergebnisse/2016-2017" "statistik-zweikaempfe" then [zweikaempfeT]
  else if url = statUrlFixture "ergebnisse/2016-2017" "statistik-laufleistung-topspeed" then [topspeedNoTeamT]
  else if url = statUrlFixture "ergebnisse/2016-2017" "statistik-laufleistung" then [laufT]
  else if url = statUrlFixture "ergebnisse/2016-2017" "statistik-laufleistung-sprints" then [sprintsT]
  else if url = statUrlFixture "ergebnisse/2021-2022" "statistik-zweikaempfe" then [zweikaempfeT]
  else if url = statUrlFixture "ergebnisse/2021-2022" "statistik-laufleistung-topspeed" then [topspeedT]
  else if url = statUrlFixture "ergebnisse/2021-2022" "statistik-laufleistung" then [laufT]
  else if url = statUrlFixture "ergebnisse/2021-2022" "statistik-laufleistung-sprints" then [sprintsT]
  else []

/-- Fixture network for season 2021/2022 whose four tables all carry the join
columns but share no (player name, team name) row. -/
def envDisjoint : String → List DataFrame := fun url =>
  if url = statUrlFixture "ergebnisse/2021-2022" "statistik-zweikaempfe" then [zweikaempfeT]
  else if url = statUrlFixture "ergebnisse/2021-2022" "statistik-laufleistung-topspeed" then [topspeedOtherT]
  else if url = statUrlFixture "ergebnisse/2021-2022" "statistik-laufleistung" then [laufOtherT]
  else if url = statUrlFixture "ergebnisse/2021-2022" "statistik-laufleistung-sprints" then [sprintsOtherT]
  else []

/-- A cache directory written in the program's naming pattern: one file per
((competition identifier, season label), table) triple, named by `csvName` as
`save_data` writes it. -/
def cacheFiles (entries : List ((String × String) × DataFrame)) :
    List (String × DataFrame) :=
  entries.map (fun e => (csvName e.1.1 e.1.2, e.2))

/-- A fixture cache with files of both competitions, sharing season
2021/2022, plus a second GER1 season. -/
def cacheEntriesFixture : List ((String × String) × DataFrame) :=
  [(("GER1", "2021/2022"), zweikaempfeT),
   (("GER2", "2021/2022"), topspeedT),
   (("GER1", "2016/2017"), laufT)]

/-! ## Theorems -/

/-- C4: construction with a competition identifier outside {GER1, GER2} fails
with a `KeyError` whose message names both known identifiers; construction
with an identifier in the set succeeds. -/
theorem C4_init_validates_competition (cid dir : String) :
    (cid ≠ "GER1" ∧ cid ≠ "GER2" →
      Sportschau.init cid dir = .error (.keyError compsErrMsg) ∧
      strIn "GER1" compsErrMsg = true ∧ strIn "GER2" compsErrMsg = true) ∧
    ((cid = "GER1" ∨ cid = "GER2") → (Sportschau.init cid dir).isOk = true) := by
  constructor
  · rintro ⟨h1, h2⟩
    refine ⟨?_, by decide, by decide⟩
    unfold Sportschau.init
    rw [if_neg]
    simp [COMPS, h1, h2]
  · rintro (rfl | rfl) <;> rfl

/-- C4 at concrete inputs: the unknown identifier `"XX"` is rejected with the
enumerating message and `"GER1"` is accepted. -/
theorem C4_init_validates_competition_witness :
    (Sportschau.init "XX" "/d" = .error (.keyError compsErrMsg) ∧
      strIn "GER1" compsErrMsg = true ∧ strIn "GER2" compsErrMsg = true) ∧
    (Sportschau.init "GER1" "/d").isOk = true :=
  ⟨(C4_init_validates_competition "XX" "/d").1 (by decide),
   (C4_init_validates_competition "GER1" "/d").2 (Or.inl rfl)⟩

/-- Membership in the directory set survives recording further directories. -/
theorem mem_foldl_insertIfAbsent_left (l : List String) (fs : List String)
    (x : String) (hx : x ∈ fs) : x ∈ l.foldl insertIfAbsent fs := by
  induction l generalizing fs with
  | nil => exact hx
  | cons a t ih =>
    rw [List.foldl_cons]
    refine ih _ ?_
    unfold insertIfAbsent
    split
    · exact hx
    · exact List.mem_append_left _ hx

/-- Every recorded directory is in the resulting directory set. -/
theorem mem_foldl_insertIfAbsent (l : List String) (fs : List String)
    (x : String) (hx : x ∈ l) : x ∈ l.foldl insertIfAbsent fs := by
  induction l generalizing fs with
  | nil => cases hx
  | cons a t ih =>
    rw [List.foldl_cons]
    rcases List.mem_cons.1 hx with rfl | hx
    · refine mem_foldl_insertIfAbsent_left _ _ _ ?_
      unfold insertIfAbsent
      split
      · next h => exact List.elem_iff.1 h
      · exact List.mem_append_right _ (List.mem_singleton.2 rfl)
    · exact ih _ hx

/-- Recording directories that already exist changes nothing. -/
theorem foldl_insertIfAbsent_of_subset (l : List String) (fs : List String)
    (h : ∀ a ∈ l, a ∈ fs) : l.foldl insertIfAbsent fs = fs := by
  induction l generalizing fs with
  | nil => rfl
  | cons a t ih =>
    have ha : insertIfAbsent fs a = fs := by
      unfold insertIfAbsent
      rw [if_pos (List.elem_iff.2 (h a (List.mem_cons_self a t)))]
    rw [List.foldl_cons, ha]
    exact ih fs (fun x hx => h x (List.mem_cons_of_mem a hx))

/-- `mkdir(parents=True, exist_ok=True)` is idempotent. -/
theorem mkdir_p_idempotent (fs : List String) (p : String) :
    mkdir_p (mkdir_p fs p) p = mkdir_p fs p :=
  foldl_insertIfAbsent_of_subset _ _ (fun a ha => mem_foldl_insertIfAbsent _ _ _ ha)

/-- `mkdir(parents=True, exist_ok=True)` creates the directory and all its
ancestors. -/
theorem mkdir_p_creates (fs : List String) (p : String) :
    ∀ a ∈ pathPrefixes p, a ∈ mkdir_p fs p :=
  fun a ha => mem_foldl_insertIfAbsent _ _ _ ha

/-- C9 counterexample: after the module import has created only the default
data directory, constructing with the valid identifier `"GER1"` and the absent
cache directory `"/custom/cache"` succeeds but does not create that directory,
so construction does not create the given cache directory. -/
theorem C9_counterexample :
    (Sportschau.initFS (configImport "/home/u" []) "GER1" "/custom/cache").isOk
      = true ∧
    (Sportschau.initFS (configImport "/home/u" []) "GER1" "/custom/cache").map
      (fun p => p.2.contains "/custom/cache") = .ok false := by decide

/-- C9 as amended: construction never touches the filesystem — it succeeds for
every valid identifier and leaves the directory set unchanged (in particular it
never fails because a directory already exists); the only directory creation is
the module-level one, which creates the default data directory with all its
ancestors and is idempotent. -/
theorem C9_amended_construction_no_mkdir (fs : List String)
    (cid dir home : String) (h : cid = "GER1" ∨ cid = "GER2") :
    (∃ spo, Sportschau.initFS fs cid dir = .ok (spo, fs)) ∧
    configImport home (configImport home fs) = configImport home fs ∧
    (∀ a ∈ pathPrefixes (DATA_DIR home), a ∈ configImport home fs) := by
  refine ⟨?_, mkdir_p_idempotent fs (DATA_DIR home), mkdir_p_creates fs (DATA_DIR home)⟩
  rcases h with rfl | rfl <;> exact ⟨_, rfl⟩

/-- C9 amended theorem at concrete inputs. -/
theorem C9_amended_construction_no_mkdir_witness :
    (∃ spo, Sportschau.initFS ["/x"] "GER2" "/y" = .ok (spo, ["/x"])) ∧
    configImport "/h" (configImport "/h" ["/x"]) = configImport "/h" ["/x"] ∧
    (∀ a ∈ pathPrefixes (DATA_DIR "/h"), a ∈ configImport "/h" ["/x"]) :=
  C9_amended_construction_no_mkdir ["/x"] "GER2" "/y" "/h" (Or.inr rfl)

/-- Inserting into a dict leaves the keys unchanged when the key already
exists, and appends it otherwise. -/
theorem keys_dictInsert {α : Type} (d : List (String × α)) (k : String) (v : α) :
    (dictInsert d k v).map (·.1) =
      if d.any (fun p => p.1 == k) then d.map (·.1) else d.map (·.1) ++ [k] := by
  unfold dictInsert
  split
  · next h =>
    rw [List.map_map]
    apply List.map_congr_left
    intro p hp
    by_cases hpk : p.1 = k
    · simp [hpk]
    · simp [hpk]
  · next h =>
    rw [List.map_append]
    rfl

/-- The keys of a dict built by repeated insertion are the accumulator's keys
together with the inserted keys. -/
theorem mem_keys_foldl_dictInsert {α : Type} (l : List (String × α))
    (acc : List (String × α)) (k : String) :
    (k ∈ (l.foldl (fun d p => dictInsert d p.1 p.2) acc).map (·.1)) ↔
      k ∈ acc.map (·.1) ∨ k ∈ l.map (·.1) := by
  induction l generalizing acc with
  | nil => simp
  | cons p t ih =>
    rw [List.foldl_cons, ih, keys_dictInsert]
    by_cases h : acc.any (fun q => q.1 == p.1)
    · rw [if_pos h]
      simp only [List.any_eq_true, beq_iff_eq] at h
      obtain ⟨x, hx, hxk⟩ := h
      have hp1 : p.1 ∈ acc.map (·.1) := List.mem_map.2 ⟨x, hx, hxk⟩
      simp only [List.map_cons, List.mem_cons]
      constructor
      · rintro (ha | ht)
        · exact Or.inl ha
        · exact Or.inr (Or.inr ht)
      · rintro (ha | rfl | ht)
        · exact Or.inl ha
        · exact Or.inl hp1
        · exact Or.inr ht
    · rw [if_neg h]
      simp only [List.mem_append, List.mem_singleton, List.map_cons, List.mem_cons]
      tauto

/-- Every entry of `dictInsert d k v` is either the inserted pair or one of
`d`'s entries. -/
theorem mem_dictInsert {α : Type} (d : List (String × α)) (k : String) (v : α)
    (p : String × α) (hp : p ∈ dictInsert d k v) : p = (k, v) ∨ p ∈ d := by
  unfold dictInsert at hp
  split at hp
  · rcases List.mem_map.1 hp with ⟨q, hq, rfl⟩
    by_cases h : q.1 == k
    · simp [h]
    · simp [h]
      exact Or.inr hq
  · rcases List.mem_append.1 hp with h | h
    · exact Or.inr h
    · exact Or.inl (List.mem_singleton.1 h)

/-- Every entry of a dict built by repeated insertion comes from the
accumulator or from the inserted pairs. -/
theorem mem_foldl_dictInsert {α : Type} (l : List (String × α))
    (acc : List (String × α)) (p : String × α)
    (hp : p ∈ l.foldl (fun d q => dictInsert d q.1 q.2) acc) :
    p ∈ acc ∨ p ∈ l := by
  induction l generalizing acc with
  | nil => exact Or.inl hp
  | cons q t ih =>
    rw [List.foldl_cons] at hp
    rcases ih _ hp with h | h
    · rcases mem_dictInsert _ _ _ _ h with rfl | h
      · exact Or.inr (List.mem_cons_self _ _)
      · exact Or.inl h
    · exact Or.inr (List.mem_cons_of_mem _ h)

/-- C7: when the fetched page's season options cover every allow-listed label
(plus arbitrary extras), season discovery returns a mapping whose key set is
exactly the allow-list, and each entry's value is the fixed-position slice
`"/".join(value.split("/")[4:6])` of the corresponding option's value. -/
theorem C7_set_seasons_exactly_allowlist (opts : List HtmlOption)
    (h : ∀ s ∈ AVAILABLE_SEASONS, ∃ o ∈ opts, o.text = s) :
    (∀ s, s ∈ (set_seasons opts).map (·.1) ↔ s ∈ AVAILABLE_SEASONS) ∧
    (∀ p ∈ set_seasons opts, ∃ o ∈ opts,
      o.text = p.1 ∧ p.2 = sliceSeasonValue o.value) := by
  constructor
  · intro s
    constructor
    · intro hs
      rcases List.mem_map.1 hs with ⟨p, hp, rfl⟩
      unfold set_seasons at hp
      have := List.of_mem_filter hp
      exact List.elem_iff.1 this
    · intro hs
      obtain ⟨o, ho, hot⟩ := h s hs
      unfold set_seasons
      have hkey : s ∈ (dictOfPairs
          (opts.map (fun o => (o.text, sliceSeasonValue o.value)))).map (·.1) := by
        rw [dictOfPairs, mem_keys_foldl_dictInsert]
        right
        rw [List.map_map]
        exact List.mem_map.2 ⟨o, ho, hot⟩
      rcases List.mem_map.1 hkey with ⟨p, hp, rfl⟩
      refine List.mem_map.2 ⟨p, List.mem_filter.2 ⟨hp, ?_⟩, rfl⟩
      exact List.elem_iff.2 hs
  · intro p hp
    unfold set_seasons at hp
    have hp2 := List.mem_of_mem_filter hp
    rcases mem_foldl_dictInsert _ _ _ hp2 with h0 | h0
    · cases h0
    · rcases List.mem_map.1 h0 with ⟨o, ho, heq⟩
      exact ⟨o, ho, by rw [← heq], by rw [← heq]⟩

/-- C7 at the fixture page containing all allow-listed seasons plus extras. -/
theorem C7_set_seasons_exactly_allowlist_witness :
    (∀ s, s ∈ (set_seasons seasonOptsFixture).map (·.1) ↔ s ∈ AVAILABLE_SEASONS) ∧
    (∀ p ∈ set_seasons seasonOptsFixture, ∃ o ∈ seasonOptsFixture,
      o.text = p.1 ∧ p.2 = sliceSeasonValue o.value) :=
  C7_set_seasons_exactly_allowlist seasonOptsFixture (by decide)

/-- `countP` only depends on the predicate's values on the list's members. -/
theorem countP_congr_mem {l : List String} {p q : String → Bool}
    (h : ∀ a ∈ l, p a = q a) : l.countP p = l.countP q := by
  induction l with
  | nil => rfl
  | cons a t ih =>
    rw [List.countP_cons, List.countP_cons, h a (List.mem_cons_self a t),
      ih (fun x hx => h x (List.mem_cons_of_mem a hx))]

/-- Counting a value in a mapped list counts preimages. -/
theorem count_map_eq_countP (f : String → String) (l : List String) (b : String) :
    (l.map f).count b = l.countP (fun c => f c == b) := by
  induction l with
  | nil => rfl
  | cons a t ih => rw [List.map_cons, List.count_cons, ih, List.countP_cons]

/-- The last character of a string with `"_x"` appended is `x`. -/
theorem head_reverse_append_x (c : String) :
    (c ++ "_x").data.reverse.head? = some 'x' := by
  show (c.data ++ ['_', 'x']).reverse.head? = some 'x'
  rw [List.reverse_append]
  rfl

/-- The last character of a string with `"_y"` appended is `y`. -/
theorem head_reverse_append_y (c : String) :
    (c ++ "_y").data.reverse.head? = some 'y' := by
  show (c.data ++ ['_', 'y']).reverse.head? = some 'y'
  rw [List.reverse_append]
  rfl

/-- No `_x`-suffixed column is named `Spiele`. -/
theorem append_x_ne_spiele (c : String) : c ++ "_x" ≠ "Spiele" := by
  intro h
  have h2 : (c ++ "_x").data.reverse.head? = ("Spiele" : String).data.reverse.head? := by rw [h]
  rw [head_reverse_append_x] at h2
  exact absurd h2 (by decide)

/-- No `_x`-suffixed column is named `games`. -/
theorem append_x_ne_games (c : String) : c ++ "_x" ≠ "games" := by
  intro h
  have h2 : (c ++ "_x").data.reverse.head? = ("games" : String).data.reverse.head? := by rw [h]
  rw [head_reverse_append_x] at h2
  exact absurd h2 (by decide)

/-- No `_y`-suffixed column is named `Spiele`. -/
theorem append_y_ne_spiele (c : String) : c ++ "_y" ≠ "Spiele" := by
  intro h
  have h2 : (c ++ "_y").data.reverse.head? = ("Spiele" : String).data.reverse.head? := by rw [h]
  rw [head_reverse_append_y] at h2
  exact absurd h2 (by decide)

/-- No `_y`-suffixed column is named `games`. -/
theorem append_y_ne_games (c : String) : c ++ "_y" ≠ "games" := by
  intro h
  have h2 : (c ++ "_y").data.reverse.head? = ("games" : String).data.reverse.head? := by rw [h]
  rw [head_reverse_append_y] at h2
  exact absurd h2 (by decide)

/-- The header rename maps a column to `games` exactly when it is `Spiele` or
already `games` (the lookup has no other entry whose value is `games`). -/
theorem renameCol_eq_games (c : String) :
    ((dictGet COLUMN_NAMES c).getD c = "games") ↔ (c = "Spiele" ∨ c = "games") := by
  by_cases h1 : c = "Name"; · subst h1; decide
  by_cases h2 : c = "Mannschaft"; · subst h2; decide
  by_cases h3 : c = "Spiele"; · subst h3; decide
  by_cases h4 : c = "Gew."; · subst h4; decide
  by_cases h5 : c = "Verl."; · subst h5; decide
  by_cases h6 : c = "Summe"; · subst h6; decide
  by_cases h7 : c = "Quote %"; · subst h7; decide
  by_cases h8 : c = "Max. km/h"; · subst h8; decide
  by_cases h9 : c = "km"; · subst h9; decide
  by_cases h10 : c = "km/Spiel"; · subst h10; decide
  by_cases h11 : c = "Sprints"; · subst h11; decide
  have hnone : dictGet COLUMN_NAMES c = none := by
    unfold dictGet
    rw [List.find?_eq_none.2]
    · rfl
    · intro x hx
      simp only [COLUMN_NAMES, List.mem_cons, List.not_mem_nil, or_false] at hx
      rcases hx with rfl|rfl|rfl|rfl|rfl|rfl|rfl|rfl|rfl|rfl|rfl <;>
        (intro hc; simp only [beq_iff_eq] at hc; simp_all)
  rw [hnone]
  simp only [Option.getD]
  constructor
  · intro hg; exact Or.inr hg
  · rintro (rfl | hg)
    · exact absurd rfl h3
    · exact hg

/-- `countP` after `map` composes the predicate with the function. -/
theorem countP_map_comp (p : String → Bool) (g : String → String) (l : List String) :
    (l.map g).countP p = l.countP (fun c => p (g c)) := by
  induction l with
  | nil => rfl
  | cons a t ih => rw [List.map_cons, List.countP_cons, List.countP_cons, ih]

/-- The source's merge loop coincides with the fold described by the spec. -/
theorem mergeLoop_eq_specMergeFold (df : DataFrame) (ts : List DataFrame) :
    mergeLoop df ts = specMergeFold df ts := by
  induction ts generalizing df with
  | nil => rfl
  | cons t ts ih =>
    unfold mergeLoop specMergeFold
    dsimp only
    cases df.merge (if t.columns.contains "Spiele" then t.drop "Spiele" else t)
        ["Name", "Mannschaft"] with
    | ok d2 => exact ih d2
    | error e => rfl

/-- C2: for every non-empty table list, `_merge_dfs` is the fold the spec
describes (first table as accumulator, later tables dropped of their `Spiele`
column when present, inner-joined on (Name, Mannschaft), headers renamed by
the fixed lookup at the end); and merging two tables that both carry a
`Spiele` column raises no column-collision error and leaves exactly one games
column in the result. -/
theorem C2_merge_fold_and_single_games_column :
    (∀ (df0 : DataFrame) (rest : List DataFrame),
      merge_dfs (df0 :: rest) =
        (specMergeFold df0 rest).map (fun d => d.rename COLUMN_NAMES)) ∧
    (∀ df1 df2 : DataFrame,
      df1.columns.count "Spiele" = 1 →
      df2.columns.contains "Spiele" = true →
      df1.columns.contains "Name" = true →
      df1.columns.contains "Mannschaft" = true →
      df2.columns.contains "Name" = true →
      df2.columns.contains "Mannschaft" = true →
      df1.columns.contains "games" = false →
      df2.columns.contains "games" = false →
      ∃ res, merge_dfs [df1, df2] = .ok res ∧
        res.columns.count "games" = 1) := by
  constructor
  · intro df0 rest
    unfold merge_dfs
    dsimp only
    rw [mergeLoop_eq_specMergeFold]
  · intro df1 df2 h1 h2 hN1 hM1 hN2 hM2 hg1 hg2
    have ht2cols : (df2.drop "Spiele").columns =
        df2.columns.filter (fun x => x != "Spiele") := rfl
    have hNt2 : (df2.drop "Spiele").columns.contains "Name" = true := by
      rw [ht2cols]
      exact List.elem_iff.2 (List.mem_filter.2 ⟨List.elem_iff.1 hN2, by decide⟩)
    have hMt2 : (df2.drop "Spiele").columns.contains "Mannschaft" = true := by
      rw [ht2cols]
      exact List.elem_iff.2 (List.mem_filter.2 ⟨List.elem_iff.1 hM2, by decide⟩)
    have hSpt2 : (df2.drop "Spiele").columns.contains "Spiele" = false := by
      rw [Bool.eq_false_iff]
      intro hx
      have hmem := List.elem_iff.1 hx
      rw [ht2cols] at hmem
      have := List.of_mem_filter hmem
      simp at this
    have hfind : (["Name", "Mannschaft"].find? (fun k =>
        !(df1.columns.contains k) || !((df2.drop "Spiele").columns.contains k))) =
        none := by
      rw [List.find?_eq_none]
      intro k hk
      rcases List.mem_cons.1 hk with rfl | hk
      · intro hcon
        rw [hN1, hNt2] at hcon
        exact absurd hcon (by decide)
      · rcases List.mem_cons.1 hk with rfl | hk
        · intro hcon
          rw [hM1, hMt2] at hcon
          exact absurd hcon (by decide)
        · cases hk
    obtain ⟨m, hm, hmcols⟩ : ∃ m,
        df1.merge (df2.drop "Spiele") ["Name", "Mannschaft"] = .ok m ∧
        m.columns =
          df1.columns.map (fun c =>
            if !(["Name", "Mannschaft"].contains c) && df1.columns.contains c
                && (df2.drop "Spiele").columns.contains c then c ++ "_x" else c) ++
          ((df2.drop "Spiele").columns.filter
              (fun c => !(["Name", "Mannschaft"].contains c))).map
            (fun c =>
              if !(["Name", "Mannschaft"].contains c) && df1.columns.contains c
                  && (df2.drop "Spiele").columns.contains c then c ++ "_y" else c) := by
      unfold DataFrame.merge
      rw [hfind]
      exact ⟨_, rfl, rfl⟩
    have hloop : mergeLoop df1 [df2] =
        df1.merge (df2.drop "Spiele") ["Name", "Mannschaft"] := by
      unfold mergeLoop
      rw [h2, if_pos rfl]
      show (match df1.merge (df2.drop "Spiele") ["Name", "Mannschaft"] with
        | .ok d => mergeLoop d []
        | .error e => .error e) = _
      rw [hm]
      rfl
    have hmd : merge_dfs [df1, df2] = .ok (m.rename COLUMN_NAMES) := by
      unfold merge_dfs
      dsimp only
      rw [hloop, hm]
      rfl
    refine ⟨m.rename COLUMN_NAMES, hmd, ?_⟩
    show (m.rename COLUMN_NAMES).columns.count "games" = 1
    unfold DataFrame.rename
    dsimp only
    rw [hmcols, List.map_append, List.count_append,
      count_map_eq_countP, count_map_eq_countP, countP_map_comp, countP_map_comp]
    have hright : ((df2.drop "Spiele").columns.filter
        (fun c => !(["Name", "Mannschaft"].contains c))).countP
        (fun c => (dictGet COLUMN_NAMES
            (if !(["Name", "Mannschaft"].contains c) && df1.columns.contains c
                && (df2.drop "Spiele").columns.contains c then c ++ "_y" else c)).getD
            (if !(["Name", "Mannschaft"].contains c) && df1.columns.contains c
                && (df2.drop "Spiele").columns.contains c then c ++ "_y" else c)
          == "games") = 0 := by
      rw [List.countP_eq_zero]
      intro c hc
      have hcmem := List.mem_of_mem_filter hc
      rw [ht2cols] at hcmem
      have hcSp : c ≠ "Spiele" := by
        have := List.of_mem_filter hcmem
        simpa using this
      have hcg : c ≠ "games" := by
        intro hcg
        subst hcg
        have hx : df2.columns.contains "games" = true :=
          List.elem_iff.2 (List.mem_of_mem_filter hcmem)
        rw [hg2] at hx
        exact absurd hx (by decide)
      simp only [beq_iff_eq]
      split
      · intro hcon
        rcases (renameCol_eq_games _).1 hcon with hx | hx
        · exact append_y_ne_spiele c hx
        · exact append_y_ne_games c hx
      · intro hcon
        rcases (renameCol_eq_games _).1 hcon with hx | hx
        · exact hcSp hx
        · exact hcg hx
    rw [hright, Nat.add_zero]
    refine Eq.trans (countP_congr_mem ?_) h1
    intro a ha
    by_cases haSp : a = "Spiele"
    · subst haSp
      rw [show (!(["Name", "Mannschaft"].contains "Spiele") &&
          df1.columns.contains "Spiele" &&
          (df2.drop "Spiele").columns.contains "Spiele") = false by
        rw [hSpt2, Bool.and_false]]
      rw [if_neg (by decide)]
      decide
    · have hag : a ≠ "games" := by
        intro hag
        subst hag
        have hx : df1.columns.contains "games" = true := List.elem_iff.2 ha
        rw [hg1] at hx
        exact absurd hx (by decide)
      have hrhs : (a == "Spiele") = false := by simpa using haSp
      rw [hrhs]
      split
      · rw [Bool.eq_false_iff]
        intro hcon
        rw [beq_iff_eq] at hcon
        rcases (renameCol_eq_games _).1 hcon with hx | hx
        · exact append_x_ne_spiele a hx
        · exact append_x_ne_games a hx
      · rw [Bool.eq_false_iff]
        intro hcon
        rw [beq_iff_eq] at hcon
        rcases (renameCol_eq_games _).1 hcon with hx | hx
        · exact haSp hx
        · exact hag hx

/-- C2 at two concrete statistic tables both carrying a `Spiele` column. -/
theorem C2_merge_fold_and_single_games_column_witness :
    ∃ res, merge_dfs
      [⟨["Name", "Mannschaft", "Spiele", "Gew."], [["A", "X", "3", "1"]]⟩,
       ⟨["Name", "Mannschaft", "Spiele", "Max. km/h"], [["A", "X", "3", "33"]]⟩] =
        .ok res ∧ res.columns.count "games" = 1 :=
  C2_merge_fold_and_single_games_column.2 _ _ (by decide) (by decide) (by decide)
    (by decide) (by decide) (by decide) (by decide) (by decide)

/-- When no season's step raises an uncaught error, the season loop succeeds:
its data is the fold of insertions of the successful seasons and its warnings
are one message per caught merge failure, in order. -/
theorem readSeasonsLoop_ok (spo : Sportschau)
    (urls : List (String × List (String × String)))
    (env : String → List DataFrame) (ss : List String)
    (data : List (String × DataFrame)) (warns : List String)
    (h : ∀ s ∈ ss, (stepOf spo urls env s).isOk = true) :
    readSeasonsLoop spo urls env ss data warns = .ok
      { data := ss.foldl (fun d s =>
          if stepSucceeds (stepOf spo urls env s) then
            dictInsert d s (stepValue (stepOf spo urls env s)) else d) data,
        warnings := warns ++
          (ss.filter (fun s => stepWarns (stepOf spo urls env s))).map
            (fun s => warnMsg spo.competition_id s) } := by
  induction ss generalizing data warns with
  | nil => simp [readSeasonsLoop]
  | cons s t ih =>
    have hs := h s (List.mem_cons_self s t)
    have ht : ∀ x ∈ t, (stepOf spo urls env x).isOk = true :=
      fun x hx => h x (List.mem_cons_of_mem s hx)
    unfold readSeasonsLoop
    rw [List.foldl_cons, List.filter_cons]
    cases hstep : stepOf spo urls env s with
    | error e => rw [hstep] at hs; cases hs
    | ok o =>
      cases o with
      | some df =>
        show readSeasonsLoop spo urls env t (dictInsert data s df) warns = _
        rw [ih _ _ ht]
        dsimp only [stepSucceeds, stepWarns, stepValue]
        rfl
      | none =>
        show readSeasonsLoop spo urls env t data
          (warns ++ [warnMsg spo.competition_id s]) = _
        rw [ih _ _ ht]
        dsimp only [stepSucceeds, stepWarns, stepValue]
        rw [List.append_assoc]
        rfl

/-- If one requested season's step raises an uncaught error and every other
season's step does not, the season loop aborts with that error. -/
theorem readSeasonsLoop_error (spo : Sportschau)
    (urls : List (String × List (String × String)))
    (env : String → List DataFrame) (ss : List String)
    (data : List (String × DataFrame)) (warns : List String)
    (s : String) (e : PyError)
    (hs : s ∈ ss) (he : stepOf spo urls env s = .error e)
    (hok : ∀ x ∈ ss, x ≠ s → (stepOf spo urls env x).isOk = true) :
    readSeasonsLoop spo urls env ss data warns = .error e := by
  induction ss generalizing data warns with
  | nil => cases hs
  | cons a t ih =>
    unfold readSeasonsLoop
    by_cases ha : a = s
    · subst ha
      rw [he]
    · have haok := hok a (List.mem_cons_self a t) ha
      have hst : s ∈ t := by
        rcases List.mem_cons.1 hs with rfl | hst
        · exact absurd rfl ha
        · exact hst
      have htok : ∀ x ∈ t, x ≠ s → (stepOf spo urls env x).isOk = true :=
        fun x hx => hok x (List.mem_cons_of_mem a hx)
      cases hstep : stepOf spo urls env a with
      | error e' => rw [hstep] at haok; cases haok
      | ok o =>
        cases o with
        | some df => exact ih _ _ hst htok
        | none => exact ih _ _ hst htok

/-- If any statistic URL of a season parses to an empty table list, the fetch
loop fails with the not-found `KeyError` of `read_data`. -/
theorem fetchTables_error (env : String → List DataFrame)
    (statUrls : List (String × String))
    (h : ∃ p ∈ statUrls, env p.2 = []) :
    fetchTables env statUrls = .error (.keyError readDataErrMsg) := by
  induction statUrls with
  | nil =>
    obtain ⟨p, hp, _⟩ := h
    cases hp
  | cons q t ih =>
    unfold fetchTables
    cases hq : env q.2 with
    | nil =>
      show (match read_data env q.2 with
        | Except.error e => Except.error e
        | Except.ok df => (fetchTables env t).map (df :: ·)) = _
      unfold read_data
      rw [hq]
    | cons d ds =>
      show (match read_data env q.2 with
        | Except.error e => Except.error e
        | Except.ok df => (fetchTables env t).map (df :: ·)) = _
      have ht : ∃ p ∈ t, env p.2 = [] := by
        obtain ⟨p, hp, hpe⟩ := h
        rcases List.mem_cons.1 hp with rfl | hp
        · rw [hq] at hpe
          cases hpe
        · exact ⟨p, hp, hpe⟩
      unfold read_data
      rw [hq, ih ht]
      rfl

/-- A season whose URL dict entry exists but one of whose fetches finds no
table makes the per-season step raise the not-found `KeyError` (outside the
`try` block). -/
theorem stepOf_fetch_error (spo : Sportschau)
    (urls : List (String × List (String × String)))
    (env : String → List DataFrame) (s : String)
    (statUrls : List (String × String))
    (hu : dictGet urls s = some statUrls)
    (h : ∃ p ∈ statUrls, env p.2 = []) :
    stepOf spo urls env s = .error (.keyError readDataErrMsg) := by
  unfold stepOf
  rw [hu]
  show seasonStep spo env statUrls s = _
  unfold seasonStep
  rw [fetchTables_error env statUrls h]

/-- C3: a fetched page with no parsed table makes `read_data` raise the
not-found `KeyError`; the season loop's `try` does not cover the fetches, so
for any requested season list containing such a season the whole
`read_seasons` call aborts with that error and returns no mapping at all. -/
theorem C3_empty_fetch_aborts_read_seasons :
    (∀ (env : String → List DataFrame) (url : String), env url = [] →
      read_data env url = .error (.keyError readDataErrMsg)) ∧
    (∀ (spo : Sportschau) (seasonsDict : List (String × String))
      (urls : List (String × List (String × String)))
      (env : String → List DataFrame) (ss : List String) (save : Bool)
      (s : String) (statUrls : List (String × String)) (p : String × String),
      s ∈ ss → s ∈ AVAILABLE_SEASONS →
      dictGet urls s = some statUrls → p ∈ statUrls → env p.2 = [] →
      (∀ x ∈ ss, x ≠ s → (stepOf spo urls env x).isOk = true) →
      read_seasons spo seasonsDict urls env (some ss) save =
        .error (.keyError readDataErrMsg)) := by
  constructor
  · intro env url hurl
    unfold read_data
    rw [hurl]
  · intro spo seasonsDict urls env ss save s statUrls p hss hav hu hp hpe hok
    unfold read_seasons
    have hloop : readSeasonsLoop spo urls env
        (ss.filter (fun x => AVAILABLE_SEASONS.contains x)) [] [] =
        .error (.keyError readDataErrMsg) := by
      refine readSeasonsLoop_error spo urls env _ [] [] s _ ?_ ?_ ?_
      · exact List.mem_filter.2 ⟨hss, List.elem_iff.2 hav⟩
      · exact stepOf_fetch_error spo urls env s statUrls hu ⟨p, hp, hpe⟩
      · intro x hx
        exact hok x (List.mem_of_mem_filter hx)
    show (match readSeasonsLoop spo urls env
        (ss.filter (fun x => AVAILABLE_SEASONS.contains x)) [] [] with
      | Except.error e =>
        (Except.error e : Except PyError (ReadOutcome × List (String × DataFrame)))
      | Except.ok out =>
        Except.ok (out, if save then save_data spo out.data else [])) = _
    rw [hloop]

/-- C10: a season label inside the allow-list but absent from the discovered
URL dict survives the filter, its URL lookup yields `None`, and iterating it
raises an `AttributeError` that aborts the whole `read_seasons` call; the
silent drop applies only to labels outside the allow-list. -/
theorem C10_allowlisted_but_undiscovered_aborts :
    (∀ (spo : Sportschau) (seasonsDict : List (String × String))
      (urls : List (String × List (String × String)))
      (env : String → List DataFrame) (s : String) (rest : List String)
      (save : Bool), s ∉ AVAILABLE_SEASONS →
      read_seasons spo seasonsDict urls env (some (s :: rest)) save =
        read_seasons spo seasonsDict urls env (some rest) save) ∧
    (∀ (spo : Sportschau) (seasonsDict : List (String × String))
      (urls : List (String × List (String × String)))
      (env : String → List DataFrame) (ss : List String) (save : Bool)
      (s : String),
      s ∈ ss → s ∈ AVAILABLE_SEASONS → dictGet urls s = none →
      (∀ x ∈ ss, x ≠ s → (stepOf spo urls env x).isOk = true) →
      read_seasons spo seasonsDict urls env (some ss) save =
        .error .attributeError) := by
  constructor
  · intro spo seasonsDict urls env s rest save hs
    unfold read_seasons
    dsimp only
    rw [List.filter_cons]
    rw [if_neg]
    intro hcon
    exact hs (List.elem_iff.1 hcon)
  · intro spo seasonsDict urls env ss save s hss hav hu hok
    unfold read_seasons
    have hloop : readSeasonsLoop spo urls env
        (ss.filter (fun x => AVAILABLE_SEASONS.contains x)) [] [] =
        .error .attributeError := by
      refine readSeasonsLoop_error spo urls env _ [] [] s _ ?_ ?_ ?_
      · exact List.mem_filter.2 ⟨hss, List.elem_iff.2 hav⟩
      · unfold stepOf
        rw [hu]
      · intro x hx
        exact hok x (List.mem_of_mem_filter hx)
    show (match readSeasonsLoop spo urls env
        (ss.filter (fun x => AVAILABLE_SEASONS.contains x)) [] [] with
      | Except.error e =>
        (Except.error e : Except PyError (ReadOutcome × List (String × DataFrame)))
      | Except.ok out =>
        Except.ok (out, if save then save_data spo out.data else [])) = _
    rw [hloop]

/-- The keys produced by conditionally inserting distinct fresh seasons are
the accumulator's keys followed by the seasons passing the condition. -/
theorem keys_foldl_condInsert (f : String → Bool) (g : String → DataFrame)
    (ss : List String) (d0 : List (String × DataFrame))
    (hnd : ss.Nodup) (hdisj : ∀ s ∈ ss, s ∉ d0.map (·.1)) :
    (ss.foldl (fun d s => if f s then dictInsert d s (g s) else d) d0).map (·.1)
      = d0.map (·.1) ++ ss.filter f := by
  induction ss generalizing d0 with
  | nil => simp
  | cons a t ih =>
    rw [List.foldl_cons, List.filter_cons]
    have hndt : t.Nodup := (List.nodup_cons.1 hnd).2
    have hat : a ∉ t := (List.nodup_cons.1 hnd).1
    cases hf : f a with
    | false =>
      rw [if_neg (by decide), if_neg (by decide)]
      exact ih d0 hndt (fun s hs => hdisj s (List.mem_cons_of_mem a hs))
    | true =>
      rw [if_pos rfl, if_pos rfl]
      have hfresh : d0.any (fun p => p.1 == a) = false := by
        rw [Bool.eq_false_iff]
        intro hcon
        simp only [List.any_eq_true, beq_iff_eq] at hcon
        obtain ⟨p, hp, hpe⟩ := hcon
        exact hdisj a (List.mem_cons_self a t) (List.mem_map.2 ⟨p, hp, hpe⟩)
      have hins : dictInsert d0 a (g a) = d0 ++ [(a, g a)] := by
        unfold dictInsert
        rw [hfresh]
        rw [if_neg (by decide)]
      rw [hins, ih (d0 ++ [(a, g a)]) hndt ?_]
      · rw [List.map_append, List.append_assoc]
        rfl
      · intro s hs
        rw [List.map_append, List.mem_append]
        rintro (h0 | h0)
        · exact hdisj s (List.mem_cons_of_mem a hs) h0
        · have : s = a := by simpa using h0
          exact hat (this ▸ hs)

/-- C1 as amended: restricted to seasons whose merge raises the caught
`KeyError` (a join column missing from some table).  For a request of distinct
allow-listed seasons none of which raises an uncaught error, `read_seasons`
succeeds, its mapping's keys are exactly the seasons whose merge succeeded (so
each `KeyError` season is omitted), and its warnings are exactly one message —
naming the competition and the season — per `KeyError` season, in order.  A
season whose tables share no player rows is NOT such a season: its inner join
succeeds with an empty table and it is included without warning (see the
counterexample). -/
theorem C1_amended_merge_keyerror_skips_with_one_warning (spo : Sportschau) (seasonsDict : List (String × String))
    (urls : List (String × List (String × String)))
    (env : String → List DataFrame) (ss : List String) (save : Bool)
    (hnd : ss.Nodup)
    (hav : ∀ s ∈ ss, AVAILABLE_SEASONS.contains s = true)
    (hok : ∀ s ∈ ss, (stepOf spo urls env s).isOk = true) :
    (read_seasons spo seasonsDict urls env (some ss) save).map
        (fun r => (r.1.data.map (·.1), r.1.warnings)) =
      .ok (ss.filter (fun s => stepSucceeds (stepOf spo urls env s)),
           (ss.filter (fun s => stepWarns (stepOf spo urls env s))).map
             (fun s => warnMsg spo.competition_id s)) := by
  have hfilter : ss.filter (fun x => AVAILABLE_SEASONS.contains x) = ss :=
    List.filter_eq_self.2 hav
  unfold read_seasons
  dsimp only
  rw [hfilter, readSeasonsLoop_ok spo urls env ss [] [] hok]
  dsimp only [Except.map]
  rw [List.nil_append]
  refine congrArg Except.ok (Prod.ext ?_ rfl)
  dsimp only
  rw [keys_foldl_condInsert (fun s => stepSucceeds (stepOf spo urls env s))
    (fun s => stepValue (stepOf spo urls env s)) ss [] hnd (by simp)]
  rfl

/-- C1 counterexample: for a season whose four fetched tables all carry the
join columns but share no (player name, team name) row, the inner joins
succeed with an empty row set, so `read_seasons` keeps the season in the
returned mapping (with a 0-row table) and emits no warning — contradicting the
claim that such a season is omitted with exactly one warning. -/
theorem C1_counterexample :
    (read_seasons spoG1 seasonsDictFixture urlsFixture envDisjoint
        (some ["2021/2022"]) false).map
      (fun r => ((r.1.data.map (·.1)).contains "2021/2022",
        r.1.warnings.length, r.1.data.map (fun p => p.2.rows.length))) =
      .ok (true, 0, [0]) := by decide

/-- C1 amended theorem at a fixture where one season's merge raises the
caught `KeyError` (missing team column) and the other merges fine. -/
theorem C1_amended_merge_keyerror_skips_with_one_warning_witness :
    (read_seasons spoG1 seasonsDictFixture urlsFixture envMixed
        (some ["2016/2017", "2021/2022"]) true).map
        (fun r => (r.1.data.map (·.1), r.1.warnings)) =
      .ok (["2016/2017", "2021/2022"].filter
            (fun s => stepSucceeds (stepOf spoG1 urlsFixture envMixed s)),
           (["2016/2017", "2021/2022"].filter
            (fun s => stepWarns (stepOf spoG1 urlsFixture envMixed s))).map
             (fun s => warnMsg spoG1.competition_id s)) :=
  C1_amended_merge_keyerror_skips_with_one_warning spoG1 seasonsDictFixture urlsFixture envMixed
    ["2016/2017", "2021/2022"] true (by decide) (by decide) (by decide)

/-- C5: with the persist flag set, `read_seasons` writes exactly one cache
file per successfully merged season, named
`{competition_id}_{season with / replaced by -}.csv`, and nothing else (in
particular nothing for a season that failed to merge); concretely, for GER1
the request `["2021/2022"]` returns exactly the key `"2021/2022"` and writes
exactly `GER1_2021-2022.csv`. -/
theorem C5_save_writes_one_file_per_merged_season :
    (∀ (spo : Sportschau) (seasonsDict : List (String × String))
      (urls : List (String × List (String × String)))
      (env : String → List DataFrame) (seasons : Option (List String))
      (pr : ReadOutcome × List (String × DataFrame)),
      read_seasons spo seasonsDict urls env seasons true = .ok pr →
      pr.2 = pr.1.data.map (fun p => (csvName spo.competition_id p.1, p.2))) ∧
    ((read_seasons spoG1 seasonsDictFixture urlsFixture envMixed
        (some ["2021/2022"]) true).map
      (fun r => (r.1.data.map (·.1), r.2.map (·.1))) =
      .ok (["2021/2022"], ["GER1_2021-2022.csv"])) := by
  constructor
  · intro spo seasonsDict urls env seasons pr h
    unfold read_seasons at h
    dsimp only at h
    split at h
    · cases h
    · rw [if_pos rfl] at h
      cases h
      rfl
  · decide

/-- For each known competition and allow-listed season: the cache filename's
stem contains the competition identifier, splits at `_` into the identifier
and the encoded season, and decoding the season restores the label. -/
theorem cache_roundtrip_parts :
    ∀ cid ∈ ["GER1", "GER2"], ∀ s ∈ AVAILABLE_SEASONS,
      strIn cid (stem (csvName cid s)) = true ∧
      strSplit (stem (csvName cid s)) '_' = [cid, strReplace s '/' '-'] ∧
      strReplace (strReplace s '/' '-') '-' '/' = s := by decide

/-- Inserting pairs with distinct fresh keys into a dict appends them. -/
theorem foldl_dictInsert_of_nodup {α : Type} (l d0 : List (String × α))
    (hnd : (l.map (·.1)).Nodup) (hdisj : ∀ p ∈ l, p.1 ∉ d0.map (·.1)) :
    l.foldl (fun d p => dictInsert d p.1 p.2) d0 = d0 ++ l := by
  induction l generalizing d0 with
  | nil => simp
  | cons q t ih =>
    rw [List.foldl_cons]
    have hndt : (t.map (·.1)).Nodup := by
      rw [List.map_cons] at hnd
      exact (List.nodup_cons.1 hnd).2
    have hqt : q.1 ∉ t.map (·.1) := by
      rw [List.map_cons] at hnd
      exact (List.nodup_cons.1 hnd).1
    have hfresh : d0.any (fun p => p.1 == q.1) = false := by
      rw [Bool.eq_false_iff]
      intro hcon
      simp only [List.any_eq_true, beq_iff_eq] at hcon
      obtain ⟨p, hp, hpe⟩ := hcon
      exact hdisj q (List.mem_cons_self q t) (List.mem_map.2 ⟨p, hp, hpe⟩)
    have hins : dictInsert d0 q.1 q.2 = d0 ++ [q] := by
      unfold dictInsert
      rw [hfresh]
      rw [if_neg (by decide), Prod.mk.eta]
    rw [hins, ih (d0 ++ [q]) hndt ?_]
    · rw [List.append_assoc]
      rfl
    · intro p hp
      rw [List.map_append, List.mem_append]
      rintro (h0 | h0)
      · exact hdisj p (List.mem_cons_of_mem q hp) h0
      · have hpq : p.1 = q.1 := by simpa using h0
        exact hqt (hpq ▸ List.mem_map.2 ⟨p, hp, rfl⟩)

/-- A dict built from pairs with distinct keys is those pairs. -/
theorem dictOfPairs_eq_self {α : Type} (l : List (String × α))
    (hnd : (l.map (·.1)).Nodup) : dictOfPairs l = l :=
  foldl_dictInsert_of_nodup l [] hnd (by simp)

/-- The filename-decoding fold of `load_data` restores exactly the season/
table pairs that `save_data` encoded. -/
theorem loadFold_save (spo : Sportschau)
    (hcid : spo.competition_id = "GER1" ∨ spo.competition_id = "GER2")
    (d : List (String × DataFrame)) :
    ∀ (acc : List (String × DataFrame)), (∀ p ∈ d, p.1 ∈ AVAILABLE_SEASONS) →
      ((save_data spo d).foldlM (fun acc p => do
          let piece ← pyIndex (strSplit (stem p.1) '_') 1
          pure (acc ++ [(strReplace piece '-' '/', p.2)])) acc) = .ok (acc ++ d) := by
  induction d with
  | nil =>
    intro acc h
    rw [List.append_nil]
    rfl
  | cons q t ih =>
    intro acc h
    have hcidmem : spo.competition_id ∈ ["GER1", "GER2"] := by
      rcases hcid with h0 | h0 <;> simp [h0]
    obtain ⟨-, hsplit, hrepl⟩ := cache_roundtrip_parts spo.competition_id hcidmem
      q.1 (h q (List.mem_cons_self q t))
    show ((save_data spo (q :: t)).foldlM _ acc) = _
    rw [show save_data spo (q :: t) =
      (csvName spo.competition_id q.1, q.2) :: save_data spo t from rfl]
    rw [List.foldlM_cons]
    dsimp only
    rw [hsplit]
    show ((save_data spo t).foldlM _ (acc ++ [(strReplace (strReplace q.1 '/' '-') '-' '/', q.2)])) = _
    rw [hrepl, Prod.mk.eta]
    rw [ih (acc ++ [q]) (fun p hp => h p (List.mem_cons_of_mem q hp))]
    rw [List.append_assoc]
    rfl

/-- C6: persisting merged season tables and loading the cache back restricted
to the configured competition returns the very same mapping keyed by season
label alone — same season keys, and each restored table equal to the one
written (hence same row count and columns). -/
theorem C6_save_load_roundtrip (spo : Sportschau) (data : List (String × DataFrame))
    (hcid : spo.competition_id = "GER1" ∨ spo.competition_id = "GER2")
    (hs : ∀ p ∈ data, p.1 ∈ AVAILABLE_SEASONS)
    (hnd : (data.map (·.1)).Nodup) :
    load_data spo (save_data spo data) false = .ok data := by
  unfold load_data
  rw [if_neg (by decide)]
  have hcidmem : spo.competition_id ∈ ["GER1", "GER2"] := by
    rcases hcid with h0 | h0 <;> simp [h0]
  have hfilter : (save_data spo data).filter
      (fun p => strIn spo.competition_id (stem p.1)) = save_data spo data := by
    apply List.filter_eq_self.2
    intro p hp
    rcases List.mem_map.1 hp with ⟨q, hq, rfl⟩
    exact (cache_roundtrip_parts spo.competition_id hcidmem q.1 (hs q hq)).1
  rw [hfilter, loadFold_save spo hcid data [] hs]
  rw [List.nil_append]
  show Except.ok (dictOfPairs data) = Except.ok data
  rw [dictOfPairs_eq_self data hnd]

/-- C3 at the fixtures: a URL with no parsed table makes `read_data` raise,
and a requested season whose statistic pages parse to no tables aborts the
whole `read_seasons` call with that error. -/
theorem C3_empty_fetch_aborts_read_seasons_witness :
    read_data envDisjoint "nope" = .error (.keyError readDataErrMsg) ∧
    read_seasons spoG1 seasonsDictFixture urlsFixture envDisjoint
        (some ["2016/2017"]) true = .error (.keyError readDataErrMsg) :=
  ⟨C3_empty_fetch_aborts_read_seasons.1 envDisjoint "nope" (by decide),
   C3_empty_fetch_aborts_read_seasons.2 spoG1 seasonsDictFixture urlsFixture
     envDisjoint ["2016/2017"] true "2016/2017"
     [("zweikaempfe", statUrlFixture "ergebnisse/2016-2017" "statistik-zweikaempfe"),
      ("topspeed", statUrlFixture "ergebnisse/2016-2017" "statistik-laufleistung-topspeed"),
      ("laufleistung", statUrlFixture "ergebnisse/2016-2017" "statistik-laufleistung"),
      ("sprints", statUrlFixture "ergebnisse/2016-2017" "statistik-laufleistung-sprints")]
     ("zweikaempfe", statUrlFixture "ergebnisse/2016-2017" "statistik-zweikaempfe")
     (by decide) (by decide) (by decide) (by decide) (by decide) (by decide)⟩

/-- C10 at the fixtures: a label outside the allow-list is silently dropped,
while the allow-listed season `2022/2023` absent from the discovered URL dict
aborts the call with `AttributeError`. -/
theorem C10_allowlisted_but_undiscovered_aborts_witness :
    (read_seasons spoG1 seasonsDictFixture urlsFixture envMixed
        (some ["1999/2000"]) true =
      read_seasons spoG1 seasonsDictFixture urlsFixture envMixed (some []) true) ∧
    read_seasons spoG1 seasonsDictFixture urlsFixture envMixed
        (some ["2022/2023"]) true = .error .attributeError :=
  ⟨C10_allowlisted_but_undiscovered_aborts.1 spoG1 seasonsDictFixture urlsFixture
     envMixed "1999/2000" [] true (by decide),
   C10_allowlisted_but_undiscovered_aborts.2 spoG1 seasonsDictFixture urlsFixture
     envMixed ["2022/2023"] true "2022/2023" (by decide) (by decide) (by decide)
     (by decide)⟩

/-- C5's universally quantified part applied at a concrete call. -/
theorem C5_save_writes_one_file_per_merged_season_witness :
    read_seasons spoG1 seasonsDictFixture urlsFixture envMixed (some []) true =
      .ok ((⟨[], []⟩ : ReadOutcome), []) ∧
    ((⟨[], []⟩ : ReadOutcome), ([] : List (String × DataFrame))).2 =
      ((⟨[], []⟩ : ReadOutcome), ([] : List (String × DataFrame))).1.data.map
        (fun p => (csvName spoG1.competition_id p.1, p.2)) :=
  ⟨by decide,
   C5_save_writes_one_file_per_merged_season.1 spoG1 seasonsDictFixture
     urlsFixture envMixed (some []) _ (by decide)⟩

/-- C6 at a concrete one-season data set. -/
theorem C6_save_load_roundtrip_witness :
    load_data spoG1 (save_data spoG1 [("2021/2022", zweikaempfeT)]) false =
      .ok [("2021/2022", zweikaempfeT)] :=
  C6_save_load_roundtrip spoG1 [("2021/2022", zweikaempfeT)] (Or.inl rfl)
    (by decide) (by decide)


/-- Filtering a mapped list filters the originals by the composed predicate. -/
theorem filter_map_comm {α β : Type} (f : α → β) (p : β → Bool) (l : List α) :
    (l.map f).filter p = (l.filter (fun a => p (f a))).map f := by
  induction l with
  | nil => rfl
  | cons a t ih =>
    rw [List.map_cons, List.filter_cons, List.filter_cons]
    cases hp : p (f a) with
    | false =>
      rw [if_neg (by decide), if_neg (by decide)]
      exact ih
    | true =>
      rw [if_pos rfl, if_pos rfl, List.map_cons, ih]

/-- For known competitions and allow-listed seasons: a cache filename's stem
contains a competition identifier exactly when it is the file's own, and
restoring `-` to `/` on the stem yields the combined
`{competition}_{season}` string. -/
theorem cache_name_facts :
    ∀ c1 ∈ ["GER1", "GER2"], ∀ c2 ∈ ["GER1", "GER2"], ∀ s ∈ AVAILABLE_SEASONS,
      strIn c1 (stem (csvName c2 s)) = (c2 == c1) ∧
      strReplace (stem (csvName c2 s)) '-' '/' = c2 ++ "_" ++ s := by decide

/-- Combined `{competition}_{season}` keys coincide only for equal
(competition, season) pairs, over the known competitions and allow-listed
seasons. -/
theorem combined_key_injective :
    ∀ c1 ∈ ["GER1", "GER2"], ∀ c2 ∈ ["GER1", "GER2"],
    ∀ s1 ∈ AVAILABLE_SEASONS, ∀ s2 ∈ AVAILABLE_SEASONS,
      (c1 ++ "_" ++ s1 = c2 ++ "_" ++ s2) ↔ (c1 = c2 ∧ s1 = s2) := by decide

/-- C8 counterexample: over literally every set of cache files the claim
fails — the file `GER1.csv`, whose stem contains the configured identifier but
no underscore, makes the flag-off load raise `IndexError` at
`file.stem.split("_")[1]` instead of returning a mapping keyed by season. -/
theorem C8_counterexample :
    load_data spoG1 [("GER1.csv", zweikaempfeT)] false =
      .error .indexError := by decide

/-- C8 as amended: for every cache whose files follow the program's naming
pattern (`{competition}_{season with / replaced by -}.csv` with a known
competition and an allow-listed season) and either configured competition,
the flag-off load returns the mapping keyed by season label alone containing
exactly the configured competition's files, the flag-on load returns the
mapping keyed by the combined `{competition}_{season}` string, and combined
keys are equal only for equal (competition, season) pairs — so two
competitions sharing a season label do not collide. -/
theorem C8_amended_load_keying_for_cache_named_files (spo : Sportschau)
    (entries : List ((String × String) × DataFrame))
    (hspo : spo.competition_id = "GER1" ∨ spo.competition_id = "GER2")
    (hwf : ∀ e ∈ entries, e.1.1 ∈ ["GER1", "GER2"] ∧ e.1.2 ∈ AVAILABLE_SEASONS) :
    load_data spo (cacheFiles entries) false =
      .ok (dictOfPairs ((entries.filter
        (fun e => e.1.1 == spo.competition_id)).map (fun e => (e.1.2, e.2)))) ∧
    load_data spo (cacheFiles entries) true =
      .ok (dictOfPairs (entries.map (fun e => (e.1.1 ++ "_" ++ e.1.2, e.2)))) ∧
    (∀ e1 ∈ entries, ∀ e2 ∈ entries,
      (e1.1.1 ++ "_" ++ e1.1.2 = e2.1.1 ++ "_" ++ e2.1.2) ↔ e1.1 = e2.1) := by
  have hspomem : spo.competition_id ∈ ["GER1", "GER2"] := by
    rcases hspo with h0 | h0 <;> simp [h0]
  refine ⟨?_, ?_, ?_⟩
  · unfold load_data
    rw [if_neg (by decide)]
    have hfilter : (cacheFiles entries).filter
        (fun p => strIn spo.competition_id (stem p.1)) =
        cacheFiles (entries.filter (fun e => e.1.1 == spo.competition_id)) := by
      unfold cacheFiles
      rw [filter_map_comm]
      refine congrArg _ (List.filter_congr ?_)
      intro e he
      exact (cache_name_facts spo.competition_id hspomem e.1.1 (hwf e he).1
        e.1.2 (hwf e he).2).1
    rw [hfilter]
    have hdata : cacheFiles (entries.filter (fun e => e.1.1 == spo.competition_id)) =
        save_data spo ((entries.filter
          (fun e => e.1.1 == spo.competition_id)).map (fun e => (e.1.2, e.2))) := by
      unfold cacheFiles save_data
      rw [List.map_map]
      apply List.map_congr_left
      intro e he
      have : e.1.1 = spo.competition_id := by
        simpa using List.of_mem_filter he
      simp [this]
    rw [hdata, loadFold_save spo hspo _ []]
    · rfl
    · intro p hp
      rcases List.mem_map.1 hp with ⟨e, he, rfl⟩
      exact (hwf e (List.mem_of_mem_filter he)).2
  · unfold load_data
    rw [if_pos rfl]
    refine congrArg Except.ok (congrArg dictOfPairs ?_)
    unfold cacheFiles
    rw [List.map_map]
    apply List.map_congr_left
    intro e he
    have hfact := (cache_name_facts spo.competition_id hspomem e.1.1 (hwf e he).1
      e.1.2 (hwf e he).2).2
    show (strReplace (stem (csvName e.1.1 e.1.2)) '-' '/', e.2) = _
    rw [hfact]
  · intro e1 he1 e2 he2
    have h1 := hwf e1 he1
    have h2 := hwf e2 he2
    constructor
    · intro heq
      obtain ⟨hc, hs⟩ := (combined_key_injective e1.1.1 h1.1 e2.1.1 h2.1
        e1.1.2 h1.2 e2.1.2 h2.2).1 heq
      exact Prod.ext hc hs
    · intro heq
      rw [show e1.1.1 = e2.1.1 from congrArg Prod.fst heq,
        show e1.1.2 = e2.1.2 from congrArg Prod.snd heq]

/-- C8 amended theorem at a fixture cache holding both competitions with a
shared season plus a second GER1 season. -/
theorem C8_amended_load_keying_for_cache_named_files_witness :
    load_data spoG1 (cacheFiles cacheEntriesFixture) false =
      .ok (dictOfPairs ((cacheEntriesFixture.filter
        (fun e => e.1.1 == spoG1.competition_id)).map (fun e => (e.1.2, e.2)))) ∧
    load_data spoG1 (cacheFiles cacheEntriesFixture) true =
      .ok (dictOfPairs (cacheEntriesFixture.map
        (fun e => (e.1.1 ++ "_" ++ e.1.2, e.2)))) ∧
    (∀ e1 ∈ cacheEntriesFixture, ∀ e2 ∈ cacheEntriesFixture,
      (e1.1.1 ++ "_" ++ e1.1.2 = e2.1.1 ++ "_" ++ e2.1.2) ↔ e1.1 = e2.1) :=
  C8_amended_load_keying_for_cache_named_files spoG1 cacheEntriesFixture
    (Or.inl rfl) (by decide)
